import Mathlib

/-!
Verification of the data-channel transport core of the pion/webrtc
repository against its specification.

The bundle-policy enum and the certificate constructor are embedded
directly from the source files under src/.  The identifier allocator,
the per-channel dispatch pipeline, the channel state machine, the
registry and the detached stream are exercised in src/ only through
their unit tests; their implementations live outside the exhibited
sources, so those components are modelled from the specification and
checked against the concrete expectations recorded in the tests.
-/

set_option maxHeartbeats 1000000

namespace Webrtc

/-! ## RTCBundlePolicy, embedded from src/rtcbundlepolicy.go -/

/-- Go declares `type RTCBundlePolicy int`; the three named constants take
the iota values 1, 2, 3. -/
abbrev RTCBundlePolicy := Int

/-- Go constant RTCBundlePolicyBalanced (iota + 1). -/
def RTCBundlePolicyBalanced : RTCBundlePolicy := 1

/-- Go constant RTCBundlePolicyMaxCompat. -/
def RTCBundlePolicyMaxCompat : RTCBundlePolicy := 2

/-- Go constant RTCBundlePolicyMaxBundle. -/
def RTCBundlePolicyMaxBundle : RTCBundlePolicy := 3

/-- Go constant Unknown, declared in the same package outside src/ as the
conventional zero iota value; used to tag unrecognized policy strings. -/
def Unknown : Int := 0

/-- Go constant balancedStr. -/
def balancedStr : String := "balanced"

/-- Go constant maxCompatStr. -/
def maxCompatStr : String := "max-compat"

/-- Go constant maxBundleStr. -/
def maxBundleStr : String := "max-bundle"

/-- Modelled from the spec: the message text of the package error
ErrUnknownType, declared outside src/; only its identity matters to the
claims about the String method. -/
def errUnknownTypeText : String := "unknown"

/-- Embeds NewRTCBundlePolicy from src/rtcbundlepolicy.go: a switch on the
raw string over the three policy names, defaulting to the Unknown value. -/
def NewRTCBundlePolicy (raw : String) : RTCBundlePolicy :=
  if raw = balancedStr then RTCBundlePolicyBalanced
  else if raw = maxCompatStr then RTCBundlePolicyMaxCompat
  else if raw = maxBundleStr then RTCBundlePolicyMaxBundle
  else (Unknown : RTCBundlePolicy)

/-- Embeds the String method on RTCBundlePolicy from
src/rtcbundlepolicy.go: a switch on the policy value over the three named
constants, defaulting to the ErrUnknownType message. -/
def RTCBundlePolicy.String (t : RTCBundlePolicy) : String :=
  if t = RTCBundlePolicyBalanced then balancedStr
  else if t = RTCBundlePolicyMaxCompat then maxCompatStr
  else if t = RTCBundlePolicyMaxBundle then maxBundleStr
  else errUnknownTypeText

/-! ## Identifier allocation, modelled from the spec

The implementation of generateDataChannelID is not under src/; its unit
tests are (src/sctptransport_test.go and the copy embedded in
src/rtcbundlepolicy.go).  The model below follows the spec's algorithm. -/

/-- DTLS role of the local peer, as in the test harness of
src/sctptransport_test.go: the allocator starts at 0 for the client role
(spec roleA) and at 1 for the server role (spec roleB). -/
inductive DTLSRole where
  | client
  | server
  deriving DecidableEq

/-- Error taxonomy of the channel-transport core, named as in the spec. -/
inductive ChannelError where
  | ExhaustionError
  | IdentifierCollisionError
  | NotOpenError
  | ClosedError
  deriving DecidableEq

/-- Modelled from the spec: the candidate scan inside generateDataChannelID.
Starting at candidate start and stepping by 2, with fuel candidates left to
try, return the first candidate not in the used set (given as its
characteristic function). -/
def scanID (used : Nat → Bool) : Nat → Nat → Option Nat
  | _, 0 => none
  | start, fuel + 1 =>
    if used start then scanID used (start + 2) fuel else some start

/-- Starting candidate for a role: 0 for client, 1 for server. -/
def roleStart : DTLSRole → Nat
  | .client => 0
  | .server => 1

/-- Modelled from the spec: generateDataChannelID (implementation outside
src/) allocates the next channel identifier for the local DTLS role: start
at 0 for client, 1 for server, scan ascending in steps of 2 through the
16-bit identifier space, and return the first identifier not in use; fail
with ExhaustionError when every identifier of the required parity below
65536 is in use. -/
def generateDataChannelID (used : Nat → Bool) (role : DTLSRole) :
    Except ChannelError Nat :=
  match scanID used (roleStart role) 32768 with
  | some id => .ok id
  | none => .error .ExhaustionError

/-! ## Ordered message dispatch, modelled from the spec

The DataChannel dispatch pipeline is exercised in src/ only by
TestDataChannel_MessagesAreOrdered; the implementation is outside src/.
The model serializes the per-channel events: message arrivals from the
transport and replacements of the registered message callback (OnMessage).
Callbacks are identified by a numeric tag. -/

/-- Modelled from the spec: one serialized event at a Channel dispatch
queue: either a message payload enqueued from the transport, or a
replacement of the registered message callback. -/
inductive DispatchEv where
  | msg (v : Nat)
  | setHandler (h : Nat)
  deriving DecidableEq

/-- Modelled from the spec: serialized dispatch of the events in arrival
order.  Each message is observed paired with the callback registered at the
moment of its dispatch; a handler replacement changes the callback used for
every message not yet dispatched. -/
def dispatchRun (h : Nat) : List DispatchEv → List (Nat × Nat)
  | [] => []
  | .msg v :: rest => (h, v) :: dispatchRun h rest
  | .setHandler g :: rest => dispatchRun g rest

/-- The sequence of message payloads enqueued by an event list. -/
def msgsOf : List DispatchEv → List Nat
  | [] => []
  | .msg v :: rest => v :: msgsOf rest
  | .setHandler _ :: rest => msgsOf rest

/-! ## Channel state machine and flow control, modelled from the spec

The DataChannel implementation is outside src/; its tests
(TestDataChannelBufferedAmount, TestEOF and relatives) are in
src/rtcbundlepolicy.go.  The model tracks the observable state the claims
speak about: lifecycle state, buffered amount, low-watermark threshold,
callback registration, and invocation counters for the callbacks. -/

/-- Lifecycle states of a Channel, spec section 4.3 (the spec's open state
is named opened here because open is reserved in Lean). -/
inductive ChState where
  | connecting
  | opened
  | closing
  | closed
  deriving DecidableEq

/-- Modelled from the spec: the observable per-Channel state.  Callback
registration is a presence flag; callback invocations are counted. -/
structure Channel where
  state : ChState
  bufferedAmount : Nat
  threshold : Nat
  hasLowCb : Bool
  lowCbFires : Nat
  onCloseFires : Nat
  onOpenFires : Nat
  deriving DecidableEq

/-- A freshly created Channel: connecting, zero buffered amount, zero
threshold, no callbacks registered, no callback yet invoked. -/
def initChannel : Channel :=
  { state := .connecting, bufferedAmount := 0, threshold := 0,
    hasLowCb := false, lowCbFires := 0, onCloseFires := 0, onOpenFires := 0 }

/-- Modelled from the spec: send fails synchronously with NotOpenError
while connecting and with ClosedError in the closing or closed states; in
the open state it counts the n bytes into the flow-control account. -/
def send (c : Channel) (n : Nat) : Except ChannelError Channel :=
  match c.state with
  | .connecting => .error .NotOpenError
  | .opened => .ok { c with bufferedAmount := c.bufferedAmount + n }
  | .closing => .error .ClosedError
  | .closed => .error .ClosedError

/-- Modelled from the spec: the transport confirms n bytes flushed: the
buffered amount decreases by n, clamped at 0; when the amount was strictly
above the threshold before the subtraction and is at or below it after,
the registered low-watermark callback is invoked exactly once. -/
def subtract (c : Channel) (n : Nat) : Channel :=
  let a := c.bufferedAmount - n
  let fire := c.hasLowCb && decide (c.threshold < c.bufferedAmount)
      && decide (a ≤ c.threshold)
  { c with bufferedAmount := a,
           lowCbFires := c.lowCbFires + (if fire then 1 else 0) }

/-- Modelled from the spec: SetBufferedAmountLowThreshold may be called in
any state, including before open; the value is retained. -/
def setThreshold (c : Channel) (t : Nat) : Channel := { c with threshold := t }

/-- Modelled from the spec: OnBufferedAmountLow registers the low-watermark
callback; may be called in any state, including before open. -/
def setLowCb (c : Channel) : Channel := { c with hasLowCb := true }

/-- Modelled from the spec: the connecting-to-open transition fired when
the transport confirms the stream usable; onOpen fires exactly once there. -/
def openCh (c : Channel) : Channel :=
  match c.state with
  | .connecting => { c with state := .opened, onOpenFires := c.onOpenFires + 1 }
  | _ => c

/-- Modelled from the spec: close moves any non-closed state to closed and
invokes onClose exactly once; a second close is a no-op, not an error. -/
def close (c : Channel) : Channel :=
  match c.state with
  | .closed => c
  | _ => { c with state := .closed, onCloseFires := c.onCloseFires + 1 }

/-- Events of a Channel run: application sends, transport flush
acknowledgments, configuration calls, and lifecycle transitions. -/
inductive ChEv where
  | send (n : Nat)
  | ack (n : Nat)
  | setThreshold (t : Nat)
  | setLowCb
  | openEv
  | closeEv
  deriving DecidableEq

/-- One event applied to a Channel.  A failing send leaves the channel
unchanged: the error is returned synchronously to the caller and nothing
is buffered for a later flush. -/
def step (c : Channel) : ChEv → Channel
  | .send n =>
    match send c n with
    | .ok c2 => c2
    | .error _ => c
  | .ack n => subtract c n
  | .setThreshold t => setThreshold c t
  | .setLowCb => setLowCb c
  | .openEv => openCh c
  | .closeEv => close c

/-- A Channel run: the events applied in order. -/
def run (c : Channel) : List ChEv → Channel
  | [] => c
  | e :: rest => run (step c e) rest

/-! ## ChannelRegistry, modelled from the spec

The registry implementation is outside src/.  The model keeps the
identifier-to-Channel mapping of the live channels as an association
list. -/

/-- Modelled from the spec: the registry owns the identifier-to-Channel
mapping for one peer connection; exactly the live channels appear in it. -/
structure Registry where
  channels : List (Nat × Channel)
  deriving DecidableEq

/-- Whether a live Channel in the registry owns the identifier. -/
def hasId (r : Registry) (id : Nat) : Bool :=
  (r.channels.map Prod.fst).contains id

/-- The Channel owning an identifier, if a live one does. -/
def lookupId (r : Registry) (id : Nat) : Option Channel :=
  (r.channels.find? (fun p => p.1 == id)).map Prod.snd

/-- Modelled from the spec: acceptRemote with an identifier supplied by the
peer fails with IdentifierCollisionError when a live Channel already owns
that identifier, leaving the registry untouched; otherwise it inserts the
new Channel under the identifier. -/
def acceptRemote (r : Registry) (id : Nat) (c : Channel) :
    Option ChannelError × Registry :=
  if hasId r id then (some ChannelError.IdentifierCollisionError, r)
  else (none, { channels := r.channels ++ [(id, c)] })

/-! ## DetachedStream, modelled from the spec

The detached-stream implementation is outside src/; src/ holds its test
(TestEOF) and an example program.  The model records the reading peer's
view: the queue of payloads written by the remote writer before it closed,
and how the stream was closed. -/

/-- How the underlying stream was closed, as seen by the reading peer: a
clean half-close by the remote writer, or an abortive failure. -/
inductive CloseMode where
  | clean
  | abort
  deriving DecidableEq

/-- Modelled from the spec: the reading peer's view of a detached channel:
payloads queued for blocking reads, and the close mode once the stream was
closed. -/
structure DetachedState where
  pending : List (List Nat)
  closedBy : Option CloseMode
  deriving DecidableEq

/-- Modelled from the spec: a payload written by the remote writer is
queued for blocking reads on the detached handle. -/
def writeIn (s : DetachedState) (m : List Nat) : DetachedState :=
  { s with pending := s.pending ++ [m] }

/-- Modelled from the spec: the remote writer closes its detached handle,
half-closing the underlying stream cleanly. -/
def closeRemote (s : DetachedState) : DetachedState :=
  { s with closedBy := some CloseMode.clean }

/-- Result of one blocking read on a detached handle. -/
inductive ReadResult where
  | data (m : List Nat)
  | eof
  | errAbort
  | wouldBlock
  deriving DecidableEq

/-- Modelled from the spec: one blocking read returns the next queued
payload; on an empty queue it returns a clean end-of-stream if the writer
half-closed cleanly, an error if the stream aborted, and blocks
otherwise. -/
def readOnce (s : DetachedState) : ReadResult × DetachedState :=
  match s.pending with
  | m :: rest => (ReadResult.data m, { s with pending := rest })
  | [] =>
    match s.closedBy with
    | some CloseMode.clean => (ReadResult.eof, s)
    | some CloseMode.abort => (ReadResult.errAbort, s)
    | none => (ReadResult.wouldBlock, s)

/-- Drain a payload queue by repeated reads, ending with the terminal read
result determined by the close mode. -/
def drain (closedBy : Option CloseMode) : List (List Nat) → List Nat × ReadResult
  | [] => ([], (readOnce ⟨[], closedBy⟩).1)
  | m :: rest =>
    let r := drain closedBy rest
    (m ++ r.1, r.2)

/-- Modelled from the spec: a blocking read-to-end on the detached handle:
concatenate every queued payload and end with the terminal read result. -/
def readToEnd (s : DetachedState) : List Nat × ReadResult :=
  drain s.closedBy s.pending

/-- The writes performed by the remote writer, applied in order. -/
def applyWrites (s : DetachedState) : List (List Nat) → DetachedState
  | [] => s
  | m :: ms => applyWrites (writeIn s m) ms

/-! ## RTCCertificate, embedded from src/unnamed/part_000

NewRTCCertificate switches on the dynamic type of the private key; the
x509 collaborators (CreateCertificate, ParseCertificate) are external to
the repository and are abstracted as an environment of fallible
functions. -/

/-- Private key passed to NewRTCCertificate: the Go switch in
src/unnamed/part_000 distinguishes rsa and ecdsa keys from every other key
type.  The payload tags distinct concrete keys. -/
inductive PrivateKey where
  | rsa (k : Nat)
  | ecdsa (k : Nat)
  | other (k : Nat)
  deriving DecidableEq

/-- Errors produced by the external crypto and x509 collaborators, plus the
package error ErrPrivateKeyType wrapped on unsupported key types. -/
inductive GoErr where
  | ErrPrivateKeyType
  | external (n : Nat)
  deriving DecidableEq

/-- Error results of NewRTCCertificate (src/unnamed/part_000): a
NotSupportedError or an UnknownError, each wrapping an underlying error. -/
inductive CertError where
  | NotSupportedError (wrapped : GoErr)
  | UnknownError (wrapped : GoErr)
  deriving DecidableEq

/-- Signature algorithm set on the certificate template before creation in
src/unnamed/part_000: SHA256WithRSA for rsa keys, ECDSAWithSHA256 for
ecdsa keys. -/
inductive SigAlg where
  | sha256WithRSA
  | ecdsaWithSHA256
  deriving DecidableEq

/-- Outcomes of the external x509 collaborators: CreateCertificate applied
to the template with the chosen signature algorithm and key, and
ParseCertificate applied to the produced DER bytes (certificates and DER
blobs are abstracted as numerals). -/
structure X509Env where
  createCertificate : SigAlg → PrivateKey → Except GoErr Nat
  parseCertificate : Nat → Except GoErr Nat

/-- Embeds the RTCCertificate record of src/unnamed/part_000: the secret
key together with the parsed x509 certificate. -/
structure RTCCertificate where
  secretKey : PrivateKey
  x509Cert : Nat
  deriving DecidableEq

/-- The signature algorithm NewRTCCertificate sets for a key type, when the
key type is supported. -/
def sigAlgFor : PrivateKey → Option SigAlg
  | .rsa _ => some .sha256WithRSA
  | .ecdsa _ => some .ecdsaWithSHA256
  | .other _ => none

/-- Embeds NewRTCCertificate from src/unnamed/part_000: switch on the key
type; unsupported key types fail with NotSupportedError wrapping
ErrPrivateKeyType; for supported types, a failure of certificate creation
or of certificate parsing is surfaced as an UnknownError wrapping the
underlying error. -/
def NewRTCCertificate (env : X509Env) (key : PrivateKey) :
    Except CertError RTCCertificate :=
  match key with
  | .rsa _ =>
    match env.createCertificate .sha256WithRSA key with
    | .error e => .error (.UnknownError e)
    | .ok certDER =>
      match env.parseCertificate certDER with
      | .error e => .error (.UnknownError e)
      | .ok cert => .ok { secretKey := key, x509Cert := cert }
  | .ecdsa _ =>
    match env.createCertificate .ecdsaWithSHA256 key with
    | .error e => .error (.UnknownError e)
    | .ok certDER =>
      match env.parseCertificate certDER with
      | .error e => .error (.UnknownError e)
      | .ok cert => .ok { secretKey := key, x509Cert := cert }
  | .other _ => .error (.NotSupportedError GoErr.ErrPrivateKeyType)

/-! ## Helper lemmas for the identifier scan -/

/-- A successful scan returns a free candidate reachable from the start by
steps of 2 such that every earlier reachable candidate is in use. -/
theorem scanID_sound (used : Nat → Bool) :
    ∀ (fuel start m : Nat), scanID used start fuel = some m →
      used m = false ∧ start ≤ m ∧ (m - start) % 2 = 0 ∧
        ∀ j, start ≤ j → j < m → (j - start) % 2 = 0 → used j = true := by
  intro fuel
  induction fuel with
  | zero => intro start m h; simp [scanID] at h
  | succ f ih =>
    intro start m h
    by_cases hu : used start = true
    · rw [scanID, if_pos hu] at h
      obtain ⟨h1, h2, h3, h4⟩ := ih (start + 2) m h
      refine ⟨h1, by omega, by omega, ?_⟩
      intro j hj1 hj2 hj3
      by_cases hj : j < start + 2
      · have : j = start := by omega
        subst this
        exact hu
      · exact h4 j (by omega) hj2 (by omega)
    · rw [scanID, if_neg hu] at h
      have hm : start = m := by simpa using h
      subst hm
      refine ⟨by simpa using hu, Nat.le_refl _, by simp, ?_⟩
      intro j hj1 hj2 _
      omega

/-- The scan comes back empty exactly when every candidate reachable within
the fuel is in use. -/
theorem scanID_none (used : Nat → Bool) :
    ∀ (fuel start : Nat), scanID used start fuel = none ↔
      ∀ i, i < fuel → used (start + 2 * i) = true := by
  intro fuel
  induction fuel with
  | zero => intro start; simp [scanID]
  | succ f ih =>
    intro start
    constructor
    · intro h i hi
      by_cases hu : used start = true
      · rw [scanID, if_pos hu] at h
        rcases Nat.eq_zero_or_pos i with h0 | h0
        · subst h0; simpa using hu
        · have hh := (ih (start + 2)).mp h (i - 1) (by omega)
          have e : start + 2 + 2 * (i - 1) = start + 2 * i := by omega
          rwa [e] at hh
      · rw [scanID, if_neg hu] at h
        simp at h
    · intro h
      have hu : used start = true := by simpa using h 0 (by omega)
      rw [scanID, if_pos hu]
      refine (ih (start + 2)).mpr ?_
      intro i hi
      have hh := h (i + 1) (by omega)
      have e : start + 2 * (i + 1) = start + 2 + 2 * i := by omega
      rwa [e] at hh

/-- A successful allocation is exactly a successful scan. -/
theorem generateDataChannelID_ok (used : Nat → Bool) (role : DTLSRole)
    (id : Nat) (h : generateDataChannelID used role = .ok id) :
    scanID used (roleStart role) 32768 = some id := by
  unfold generateDataChannelID at h
  cases hs : scanID used (roleStart role) 32768 with
  | none => rw [hs] at h; simp at h
  | some m => rw [hs] at h; simp at h; rw [h]

/-- Allocation fails exactly when the scan comes back empty. -/
theorem generateDataChannelID_err (used : Nat → Bool) (role : DTLSRole) :
    generateDataChannelID used role = .error .ExhaustionError ↔
      scanID used (roleStart role) 32768 = none := by
  unfold generateDataChannelID
  cases hs : scanID used (roleStart role) 32768 with
  | none => simp
  | some m => simp

/-! ## Claim theorems: identifier allocation -/

/-- C1: identifier allocation is deterministic and minimal: a successful
allocation for the client role (roleA) returns an even identifier not in
the used set all of whose even predecessors are in use, and symmetrically
an odd identifier for the server role (roleB); and the ten concrete
expectations of TestGenerateDataChannelID hold. -/
theorem c1_allocation_deterministic_minimal :
    (∀ (used : Nat → Bool) (id : Nat),
        generateDataChannelID used .client = .ok id →
          id % 2 = 0 ∧ used id = false ∧
            ∀ j, j % 2 = 0 → j < id → used j = true)
    ∧ (∀ (used : Nat → Bool) (id : Nat),
        generateDataChannelID used .server = .ok id →
          id % 2 = 1 ∧ used id = false ∧
            ∀ j, j % 2 = 1 → j < id → used j = true)
    ∧ generateDataChannelID (fun _ => false) .client = .ok 0
    ∧ generateDataChannelID (fun i => [1].contains i) .client = .ok 0
    ∧ generateDataChannelID (fun i => [0].contains i) .client = .ok 2
    ∧ generateDataChannelID (fun i => [0, 2].contains i) .client = .ok 4
    ∧ generateDataChannelID (fun i => [0, 4].contains i) .client = .ok 2
    ∧ generateDataChannelID (fun _ => false) .server = .ok 1
    ∧ generateDataChannelID (fun i => [0].contains i) .server = .ok 1
    ∧ generateDataChannelID (fun i => [1].contains i) .server = .ok 3
    ∧ generateDataChannelID (fun i => [1, 3].contains i) .server = .ok 5
    ∧ generateDataChannelID (fun i => [1, 5].contains i) .server = .ok 3 := by
  refine ⟨?_, ?_, rfl, rfl, rfl, rfl, rfl, rfl, rfl, rfl, rfl, rfl⟩
  · intro used id h
    obtain ⟨h1, h2, h3, h4⟩ :=
      scanID_sound used 32768 (roleStart .client) id
        (generateDataChannelID_ok used .client id h)
    simp only [roleStart] at h2 h3 h4
    refine ⟨by omega, h1, ?_⟩
    intro j hj1 hj2
    exact h4 j (by omega) hj2 (by omega)
  · intro used id h
    obtain ⟨h1, h2, h3, h4⟩ :=
      scanID_sound used 32768 (roleStart .server) id
        (generateDataChannelID_ok used .server id h)
    simp only [roleStart] at h2 h3 h4
    refine ⟨by omega, h1, ?_⟩
    intro j hj1 hj2
    exact h4 j (by omega) hj2 (by omega)

/-- Witness for C1: the minimality conclusion evaluated on the used set
containing exactly 0 and 4, where the allocator returns 2. -/
theorem c1_allocation_deterministic_minimal_witness :
    2 % 2 = 0 ∧ (fun i => [0, 4].contains i) 2 = false :=
  ⟨(c1_allocation_deterministic_minimal.1 (fun i => [0, 4].contains i) 2 rfl).1,
   (c1_allocation_deterministic_minimal.1 (fun i => [0, 4].contains i) 2 rfl).2.1⟩

/-- C8: allocation fails with ExhaustionError exactly when every identifier
of the role parity below 65536 is in the used set, and succeeds whenever
some identifier of that parity is free. -/
theorem c8_exhaustion_iff :
    ∀ (used : Nat → Bool) (role : DTLSRole),
      (generateDataChannelID used role = .error .ExhaustionError ↔
        ∀ i, i < 65536 → i % 2 = roleStart role → used i = true)
      ∧ ((∃ i, i < 65536 ∧ i % 2 = roleStart role ∧ used i = false) →
        ∃ id, generateDataChannelID used role = .ok id) := by
  intro used role
  have key : scanID used (roleStart role) 32768 = none ↔
      ∀ i, i < 65536 → i % 2 = roleStart role → used i = true := by
    rw [scanID_none]
    constructor
    · intro h i hi hpar
      have hh := h ((i - roleStart role) / 2) (by cases role <;> simp only [roleStart] at hpar ⊢ <;> omega)
      have e : roleStart role + 2 * ((i - roleStart role) / 2) = i := by
        cases role <;> simp only [roleStart] at hpar ⊢ <;> omega
      rwa [e] at hh
    · intro h i hi
      exact h (roleStart role + 2 * i)
        (by cases role <;> simp only [roleStart] <;> omega)
        (by cases role <;> simp only [roleStart] <;> omega)
  constructor
  · rw [generateDataChannelID_err]
    exact key
  · rintro ⟨i, hi, hpar, hfree⟩
    cases hs : scanID used (roleStart role) 32768 with
    | none =>
      exfalso
      have := key.mp hs i hi hpar
      rw [this] at hfree
      cases hfree
    | some m =>
      refine ⟨m, ?_⟩
      unfold generateDataChannelID
      rw [hs]

/-- Witness for C8: with every identifier in use, client-role allocation
fails with ExhaustionError. -/
theorem c8_exhaustion_iff_witness :
    generateDataChannelID (fun _ => true) .client =
      .error ChannelError.ExhaustionError :=
  ((c8_exhaustion_iff (fun _ => true) .client).1).mpr (fun _ _ _ => rfl)

/-! ## Claim theorem: ordered dispatch -/

/-- C2: under serialized dispatch, the sequence of message values observed
by whichever callback was active at each dispatch equals the enqueue
sequence exactly (no loss, duplication, or reordering), and a callback
replacement governs exactly the messages not yet dispatched: a run splits
at the replacement into the dispatches before it under the old handler and
the dispatches after it under the new one. -/
theorem c2_messages_ordered :
    (∀ (h : Nat) (evs : List DispatchEv),
        (dispatchRun h evs).map Prod.snd = msgsOf evs)
    ∧ (∀ (h g : Nat) (pre post : List DispatchEv),
        dispatchRun h (pre ++ DispatchEv.setHandler g :: post) =
          dispatchRun h pre ++ dispatchRun g post) := by
  constructor
  · intro h evs
    induction evs generalizing h with
    | nil => rfl
    | cons e rest ih => cases e <;> simp [dispatchRun, msgsOf, ih]
  · intro h g pre post
    induction pre generalizing h with
    | nil => simp [dispatchRun]
    | cons e rest ih => cases e <;> simp [dispatchRun, ih]

/-! ## Claim theorems: channel state machine -/

/-- C5: close is idempotent: closing twice is the same as closing once, and
from any not-yet-closed state the two calls together invoke onClose exactly
once (the second call is a no-op). -/
theorem c5_close_idempotent :
    (∀ c : Channel, close (close c) = close c)
    ∧ ∀ c : Channel, c.state ≠ ChState.closed →
        (close (close c)).onCloseFires = c.onCloseFires + 1 := by
  constructor
  · intro c
    cases c with
    | mk st ba th lcb lf cf opf => cases st <;> rfl
  · intro c h
    cases c with
    | mk st ba th lcb lf cf opf =>
      cases st
      case closed => exact absurd rfl h
      all_goals rfl

/-- Witness for C5: double close of a fresh channel fires onClose once. -/
theorem c5_close_idempotent_witness :
    (close (close initChannel)).onCloseFires = initChannel.onCloseFires + 1 :=
  c5_close_idempotent.2 initChannel (by decide)

/-- C6: send is accepted only in the open state: while connecting it fails
synchronously with NotOpenError, in closing or closed it fails with
ClosedError, and a failing send leaves the channel unchanged (nothing is
buffered for a later flush). -/
theorem c6_send_state_errors :
    ∀ (c : Channel) (n : Nat),
      (c.state = ChState.connecting →
        send c n = .error ChannelError.NotOpenError)
      ∧ (c.state = ChState.closing →
        send c n = .error ChannelError.ClosedError)
      ∧ (c.state = ChState.closed →
        send c n = .error ChannelError.ClosedError)
      ∧ (c.state ≠ ChState.opened → step c (ChEv.send n) = c) := by
  intro c n
  cases c with
  | mk st ba th lcb lf cf opf =>
    cases st <;>
      refine ⟨?_, ?_, ?_, ?_⟩ <;> intro h <;>
        first
          | rfl
          | cases h
          | exact absurd rfl h

/-- Witness for C6: send on a fresh (connecting) channel fails with
NotOpenError. -/
theorem c6_send_state_errors_witness :
    send initChannel 5 = Except.error ChannelError.NotOpenError :=
  (c6_send_state_errors initChannel 5).1 rfl

/-! ## Claim theorem: low watermark -/

/-- While the buffered amount is at or below the threshold, no event fires
the low-watermark callback. -/
theorem step_lowCbFires_of_le (c : Channel) (e : ChEv)
    (h : c.bufferedAmount ≤ c.threshold) :
    (step c e).lowCbFires = c.lowCbFires := by
  cases e with
  | send n =>
    cases c with
    | mk st ba th lcb lf cf opf => cases st <;> simp [step, send]
  | ack n =>
    have hf : decide (c.threshold < c.bufferedAmount) = false := by
      simp [Nat.not_lt.mpr h]
    simp [step, subtract, hf]
  | setThreshold t => rfl
  | setLowCb => rfl
  | openEv =>
    cases c with
    | mk st ba th lcb lf cf opf => cases st <;> rfl
  | closeEv =>
    cases c with
    | mk st ba th lcb lf cf opf => cases st <;> rfl

/-- When the buffered amount never exceeds the threshold at any point of a
run, the low-watermark callback never fires during the run. -/
theorem run_lowCbFires_of_never_exceeded :
    ∀ (evs : List ChEv) (c : Channel),
      (∀ k, k ≤ evs.length →
          (run c (evs.take k)).bufferedAmount ≤
            (run c (evs.take k)).threshold) →
        (run c evs).lowCbFires = c.lowCbFires := by
  intro evs
  induction evs with
  | nil => intro c _; rfl
  | cons e rest ih =>
    intro c h
    have h0 : c.bufferedAmount ≤ c.threshold := by
      simpa [run] using h 0 (by omega)
    have hrest : ∀ k, k ≤ rest.length →
        (run (step c e) (rest.take k)).bufferedAmount ≤
          (run (step c e) (rest.take k)).threshold := by
      intro k hk
      simpa [run, List.take_succ_cons] using h (k + 1) (by simpa using Nat.succ_le_succ hk)
    calc (run c (e :: rest)).lowCbFires
        = (run (step c e) rest).lowCbFires := rfl
      _ = (step c e).lowCbFires := ih (step c e) hrest
      _ = c.lowCbFires := step_lowCbFires_of_le c e h0

/-- C3: the low-watermark callback fires exactly once on each subtraction
that takes the buffered amount from strictly above the threshold to
at-or-below it and never otherwise; a send never fires it; it never fires
during a run in which the amount never exceeds the threshold; and a
threshold and callback set while still connecting are retained, so that
after the channel opens a send followed by a crossing acknowledgment fires
the callback exactly once. -/
theorem c3_low_watermark_crossings :
    (∀ (c : Channel) (n : Nat),
        (subtract c n).lowCbFires =
          c.lowCbFires +
            if c.hasLowCb = true ∧ c.threshold < c.bufferedAmount ∧
                c.bufferedAmount - n ≤ c.threshold then 1 else 0)
    ∧ (∀ (c : Channel) (n : Nat),
        (step c (ChEv.send n)).lowCbFires = c.lowCbFires)
    ∧ (∀ (c : Channel) (evs : List ChEv),
        (∀ k, k ≤ evs.length →
            (run c (evs.take k)).bufferedAmount ≤
              (run c (evs.take k)).threshold) →
          (run c evs).lowCbFires = c.lowCbFires)
    ∧ (∀ t n m : Nat, t < n → n - m ≤ t →
        (run initChannel
            [ChEv.setThreshold t, ChEv.setLowCb, ChEv.openEv,
              ChEv.send n, ChEv.ack m]).lowCbFires = 1) := by
  refine ⟨?_, ?_, ?_, ?_⟩
  · intro c n
    by_cases h1 : c.hasLowCb = true <;>
      by_cases h2 : c.threshold < c.bufferedAmount <;>
        by_cases h3 : c.bufferedAmount - n ≤ c.threshold <;>
          simp [subtract, h1, h2, h3]
  · intro c n
    cases c with
    | mk st ba th lcb lf cf opf => cases st <;> simp [step, send]
  · intro c evs h
    exact run_lowCbFires_of_never_exceeded evs c h
  · intro t n m h1 h2
    simp only [run, step, send, subtract, setThreshold, setLowCb, openCh,
      initChannel]
    simp [Nat.zero_add, h1, h2]

/-- Witness for C3: threshold 0 and callback set before open; after open,
sending 1 byte and acknowledging it fires the callback once. -/
theorem c3_low_watermark_crossings_witness :
    (run initChannel
        [ChEv.setThreshold 0, ChEv.setLowCb, ChEv.openEv,
          ChEv.send 1, ChEv.ack 1]).lowCbFires = 1 :=
  c3_low_watermark_crossings.2.2.2 0 1 1 (by decide) (by decide)

/-! ## Claim theorem: detached stream end of stream -/

/-- Applying the writes in order appends them to the pending queue. -/
theorem applyWrites_spec :
    ∀ (ws p : List (List Nat)) (cb : Option CloseMode),
      applyWrites ⟨p, cb⟩ ws = ⟨p ++ ws, cb⟩ := by
  intro ws
  induction ws with
  | nil => intro p cb; simp [applyWrites]
  | cons m ms ih => intro p cb; simp [applyWrites, writeIn, ih]

/-- Draining a cleanly closed queue yields every queued byte and then a
clean end of stream. -/
theorem drain_clean :
    ∀ ws : List (List Nat),
      drain (some CloseMode.clean) ws = (ws.flatten, ReadResult.eof) := by
  intro ws
  induction ws with
  | nil => rfl
  | cons m ms ih => simp [drain, ih]

/-- C4: after the remote writer writes its payloads and closes its detached
handle, the peer's blocking read-to-end returns exactly the bytes written
followed by a clean end of stream, and the final read on the drained handle
yields no data and no error. -/
theorem c4_detach_clean_eof :
    ∀ ws : List (List Nat),
      readToEnd (closeRemote (applyWrites ⟨[], none⟩ ws)) =
          (ws.flatten, ReadResult.eof)
      ∧ readOnce ⟨[], some CloseMode.clean⟩ =
          (ReadResult.eof, ⟨[], some CloseMode.clean⟩) := by
  intro ws
  refine ⟨?_, rfl⟩
  rw [applyWrites_spec]
  simp [closeRemote, readToEnd, drain_clean]

/-! ## Claim theorem: registry collision -/

/-- C7: acceptRemote with an identifier already owned by a live Channel in
the registry fails with IdentifierCollisionError and leaves the registry
and its identifier-to-Channel mapping unchanged. -/
theorem c7_accept_remote_collision :
    ∀ (r : Registry) (id : Nat) (c : Channel),
      hasId r id = true →
        (acceptRemote r id c).1 = some ChannelError.IdentifierCollisionError
        ∧ (acceptRemote r id c).2 = r
        ∧ ∀ j, lookupId (acceptRemote r id c).2 j = lookupId r j := by
  intro r id c h
  refine ⟨?_, ?_, ?_⟩ <;> simp [acceptRemote, h]

/-- Witness for C7: accepting identifier 5 into a registry already holding
a live channel under 5 fails with IdentifierCollisionError. -/
theorem c7_accept_remote_collision_witness :
    (acceptRemote ⟨[(5, initChannel)]⟩ 5 initChannel).1 =
      some ChannelError.IdentifierCollisionError :=
  (c7_accept_remote_collision ⟨[(5, initChannel)]⟩ 5 initChannel rfl).1

/-! ## Claim theorem: bundle policy round trip -/

/-- C9: NewRTCBundlePolicy and the String method round-trip on the three
named policies; every other string maps to the Unknown value; and String on
any value outside the three named policies returns the unknown-type error
text. -/
theorem c9_bundle_policy_roundtrip :
    (NewRTCBundlePolicy (RTCBundlePolicy.String RTCBundlePolicyBalanced) =
        RTCBundlePolicyBalanced
      ∧ NewRTCBundlePolicy (RTCBundlePolicy.String RTCBundlePolicyMaxCompat) =
        RTCBundlePolicyMaxCompat
      ∧ NewRTCBundlePolicy (RTCBundlePolicy.String RTCBundlePolicyMaxBundle) =
        RTCBundlePolicyMaxBundle)
    ∧ (∀ s : String, s ≠ balancedStr → s ≠ maxCompatStr → s ≠ maxBundleStr →
        NewRTCBundlePolicy s = (Unknown : RTCBundlePolicy))
    ∧ (∀ v : RTCBundlePolicy, v ≠ RTCBundlePolicyBalanced →
        v ≠ RTCBundlePolicyMaxCompat → v ≠ RTCBundlePolicyMaxBundle →
        RTCBundlePolicy.String v = errUnknownTypeText) := by
  refine ⟨⟨by decide, by decide, by decide⟩, ?_, ?_⟩
  · intro s h1 h2 h3
    simp [NewRTCBundlePolicy, h1, h2, h3]
  · intro v h1 h2 h3
    simp [RTCBundlePolicy.String, h1, h2, h3]

/-- Witness for C9: an unrecognized string maps to Unknown, and String on
the out-of-range value 7 returns the unknown-type error text. -/
theorem c9_bundle_policy_roundtrip_witness :
    NewRTCBundlePolicy "bogus" = (Unknown : RTCBundlePolicy)
    ∧ RTCBundlePolicy.String 7 = errUnknownTypeText :=
  ⟨c9_bundle_policy_roundtrip.2.1 "bogus" (by decide) (by decide) (by decide),
   c9_bundle_policy_roundtrip.2.2 7 (by decide) (by decide) (by decide)⟩

/-! ## Claim theorem: certificate construction errors -/

/-- C10: NewRTCCertificate rejects every key that is neither rsa nor ecdsa
with a NotSupportedError wrapping ErrPrivateKeyType, and for the two
supported key types any failure of certificate creation or parsing is
surfaced as an UnknownError wrapping the underlying error. -/
theorem c10_certificate_errors :
    ∀ (env : X509Env) (key : PrivateKey),
      ((∀ k, key ≠ PrivateKey.rsa k) → (∀ k, key ≠ PrivateKey.ecdsa k) →
        NewRTCCertificate env key =
          .error (CertError.NotSupportedError GoErr.ErrPrivateKeyType))
      ∧ (∀ a e, sigAlgFor key = some a →
          env.createCertificate a key = .error e →
          NewRTCCertificate env key = .error (CertError.UnknownError e))
      ∧ (∀ a der e, sigAlgFor key = some a →
          env.createCertificate a key = .ok der →
          env.parseCertificate der = .error e →
          NewRTCCertificate env key = .error (CertError.UnknownError e)) := by
  intro env key
  cases key with
  | rsa k =>
    refine ⟨fun h _ => absurd rfl (h k), ?_, ?_⟩
    · intro a e ha he
      simp [sigAlgFor] at ha
      subst ha
      simp [NewRTCCertificate, he]
    · intro a der e ha hc hp
      simp [sigAlgFor] at ha
      subst ha
      simp [NewRTCCertificate, hc, hp]
  | ecdsa k =>
    refine ⟨fun _ h => absurd rfl (h k), ?_, ?_⟩
    · intro a e ha he
      simp [sigAlgFor] at ha
      subst ha
      simp [NewRTCCertificate, he]
    · intro a der e ha hc hp
      simp [sigAlgFor] at ha
      subst ha
      simp [NewRTCCertificate, hc, hp]
  | other k =>
    refine ⟨fun _ _ => rfl, ?_, ?_⟩
    · intro a e ha
      simp [sigAlgFor] at ha
    · intro a der e ha
      simp [sigAlgFor] at ha

/-- Witness for C10: an unsupported key type is rejected with
NotSupportedError wrapping ErrPrivateKeyType. -/
theorem c10_certificate_errors_witness :
    NewRTCCertificate
        ⟨fun _ _ => Except.error (GoErr.external 7), fun d => Except.ok d⟩
        (PrivateKey.other 0) =
      Except.error (CertError.NotSupportedError GoErr.ErrPrivateKeyType) :=
  (c10_certificate_errors
      ⟨fun _ _ => Except.error (GoErr.external 7), fun d => Except.ok d⟩
      (PrivateKey.other 0)).1
    (fun _ h => PrivateKey.noConfusion h) (fun _ h => PrivateKey.noConfusion h)

end Webrtc
